import Mathlib

/-!
Verification of the `vs-tools` property accessors (`src/vstools/utils/props.py`)
and error hierarchy (`src/vstools/exceptions/base.py`) against their
natural-language specification, via a shallow embedding in Lean 4.

Python runtime values that can live in a frame-property container are modelled
by the closed universe `PVal`; Python runtime type objects used as the expected
type `t` of `get_prop` by `PType`; exceptions by `PyExc`; the class hierarchy
relevant to the error types by `ExcClass`.  Property containers are modelled as
association lists in insertion order, with `dict`/`VSMap` update semantics.
-/

set_option autoImplicit false

namespace VSTools

/-- Runtime values storable in a frame-property container (a closed universe
standing in for the engine's primitive property types). -/
inductive PVal where
  | pint (n : Int)
  | pstr (s : String)
  | pbytes (s : String)
  deriving DecidableEq, Repr

/-- Python type objects usable as the expected type `t` of `get_prop`. -/
inductive PType where
  | tInt
  | tStr
  | tBytes
  deriving DecidableEq, Repr

/-- Runtime type of a value, as Python's `type(prop)` computes it. -/
def PVal.ptype : PVal → PType
  | .pint _ => .tInt
  | .pstr _ => .tStr
  | .pbytes _ => .tBytes

/-- Python `isinstance(v, t)` on the modelled universe. -/
def isinstance (v : PVal) (t : PType) : Bool :=
  v.ptype = t

/-- Name of a type, as in Python's `t.__name__`. -/
def PType.name : PType → String
  | .tInt => "int"
  | .tStr => "str"
  | .tBytes => "bytes"

/-- Python `str(t)` for a type object `t`: `<class 'int'>` and so on. -/
def PType.pyStr (t : PType) : String :=
  "<class \x27" ++ t.name ++ "\x27>"

/-- Property container: string-keyed mapping in insertion order (a `dict` /
`VSMap` view). -/
abbrev PropMap : Type := List (String × PVal)

/-- Key lookup, `m[k]`: the value at the first entry whose key is `k`. -/
def PropMap.lookup (m : PropMap) (k : String) : Option PVal :=
  (List.find? (fun p => p.1 == k) m).map (·.2)

/-- Value at the last entry whose key is `k` (for a `dict` the two coincide,
keys being unique). -/
def PropMap.lookupLast (m : PropMap) (k : String) : Option PVal :=
  (List.find? (fun p => p.1 == k) (List.reverse m)).map (·.2)

/-- Keyed assignment `m[k] = v`: replace the value at an existing key in
place, else append the new entry (Python `dict.__setitem__`). -/
def PropMap.setItem : PropMap → String → PVal → PropMap
  | [], k, v => [(k, v)]
  | p :: rest, k, v => if p.1 == k then (p.1, v) :: rest else p :: PropMap.setItem rest k v

/-- Python `dst.update(src)`: assign every entry of `src` into `dst`, in
`src`'s iteration order. -/
def PropMap.update (dst src : PropMap) : PropMap :=
  List.foldl (fun d p => PropMap.setItem d p.1 p.2) dst src

/-- Value chosen by last-write-wins over a list of maps: the value of `k` in
the last map of `maps` that contains it. -/
def lookupMulti (maps : List PropMap) (k : String) : Option PVal :=
  List.findSome? (fun m => PropMap.lookupLast m k) (List.reverse maps)

/-! ### Exception class hierarchy (`src/vstools/exceptions/base.py`)

Classes are modelled by name; `bases` records each class's declared direct
superclasses (for the `Custom*` classes, exactly the bases written in
`base.py`; for the standard classes, their CPython bases). -/

/-- Exception classes relevant to the repository's error hierarchy. -/
inductive ExcClass where
  | baseException
  | exception
  | valueError
  | lookupError
  | keyError
  | typeError
  | runtimeError
  | osError
  | permissionError
  | customError
  | customValueError
  | customKeyError
  | customTypeError
  | customRuntimeError
  | customPermissionError
  | framePropError
  deriving DecidableEq, Repr

/-- Declared direct base classes.  The `Custom*` entries transcribe the class
declarations in `base.py` (for example `class CustomValueError(CustomError,
ValueError)`); the standard-library entries are CPython's hierarchy.
`framePropError` is modelled from the spec: `FramePropError` (module
`vstools.exceptions`, not under `src/`) is "a Key-category error under the
hood", a subclass of `CustomKeyError`. -/
def ExcClass.bases : ExcClass → List ExcClass
  | .baseException => []
  | .exception => [.baseException]
  | .valueError => [.exception]
  | .lookupError => [.exception]
  | .keyError => [.lookupError]
  | .typeError => [.exception]
  | .runtimeError => [.exception]
  | .osError => [.exception]
  | .permissionError => [.osError]
  | .customError => [.exception]
  | .customValueError => [.customError, .valueError]
  | .customKeyError => [.customError, .keyError]
  | .customTypeError => [.customError, .typeError]
  | .customRuntimeError => [.customError, .runtimeError]
  | .customPermissionError => [.customError, .permissionError]
  | .framePropError => [.customKeyError]

/-- Reflexive-transitive closure of `bases`, fuel-bounded (the hierarchy has
depth well below 8): `isSubclassAux fuel c target` holds when `target` is
reachable from `c` through declared bases. -/
def ExcClass.isSubclassAux : Nat → ExcClass → ExcClass → Bool
  | 0, c, target => c == target
  | fuel + 1, c, target =>
    c == target || List.any (ExcClass.bases c) (fun b => ExcClass.isSubclassAux fuel b target)

/-- Python `issubclass(c, target)` on the modelled hierarchy; an instance of
`c` satisfies `isinstance(_, target)` exactly when this holds. -/
def ExcClass.isSubclassOf (c target : ExcClass) : Bool :=
  ExcClass.isSubclassAux 8 c target

/-! ### Message formatting (`str.format`, as used by `CustomError.__init__`)

The repository formats message templates with named placeholders only (no
positional fields, no format specifications), e.g.
`'Key {key} not present in props!'.format(key=key)`.  `formatTemplate` embeds
exactly that fragment of `str.format`: `\x7b\x7b`/`\x7d\x7d` escape to a brace,
`\x7bname\x7d` substitutes the keyword `name` (raising - `Except.error` - when
it is absent, as `str.format` raises `KeyError`), and an unbalanced brace
raises.  The recursion is fuel-bounded by the template length, which each
step strictly decreases, so the fuel never runs out. -/

/-- Splits a placeholder body: consumes characters up to the closing brace,
returning the field name and the remainder (or `none` when unbalanced). -/
def splitName : List Char → Option (List Char × List Char)
  | [] => none
  | c :: rest =>
    if c = '\x7d' then some ([], rest)
    else (splitName rest).map (fun q => (c :: q.1, q.2))

/-- Keyword lookup among the named substitution values. -/
def lookupKw (kwargs : List (String × String)) (name : String) : Option String :=
  (List.find? (fun p => p.1 == name) kwargs).map (·.2)

/-- Character-level formatting loop of `formatTemplate`. -/
def fmtAux (kwargs : List (String × String)) : Nat → List Char → Except Unit (List Char)
  | _, [] => Except.ok []
  | 0, _ :: _ => Except.error ()
  | fuel + 1, c :: rest =>
    if c = '\x7b' then
      match rest with
      | c2 :: rest2 =>
        if c2 = '\x7b' then Except.map (fun tl => '\x7b' :: tl) (fmtAux kwargs fuel rest2)
        else
          match splitName (c2 :: rest2) with
          | none => Except.error ()
          | some (name, r) =>
            match lookupKw kwargs (String.mk name) with
            | none => Except.error ()
            | some v => Except.map (fun tl => v.data ++ tl) (fmtAux kwargs fuel r)
      | [] => Except.error ()
    else if c = '\x7d' then
      match rest with
      | c2 :: rest2 =>
        if c2 = '\x7d' then Except.map (fun tl => '\x7d' :: tl) (fmtAux kwargs fuel rest2)
        else Except.error ()
      | [] => Except.error ()
    else Except.map (fun tl => c :: tl) (fmtAux kwargs fuel rest)

/-- Python `template.format(**kwargs)` for named-placeholder templates. -/
def formatTemplate (template : String) (kwargs : List (String × String)) : Except Unit String :=
  Except.map (fun cs => String.mk cs) (fmtAux kwargs template.data.length template.data)

/-! ### `CustomError.__init__` (`src/vstools/exceptions/base.py`, lines 35-58)

The stored error text is modelled as `Option String` (`none` when
`message is None`, in which case `super().__init__()` is called with no
arguments before `function` or the keyword substitutions are ever read).
`message` is carried already `str()`-converted (its carrier is `String`);
`function`, of Python type `SupportsString | F | None`, is carried as
`Option String` holding the label of a supplied function, `none` for the
`None` default; the source's truthiness test `if function:` is false for
`None` and for an empty label (a callable is always truthy).
`norm` stands for the external helper `norm_func_name`, and `isatty` for
`sys.stdout.isatty()`. -/

/-- Header built for a truthy `function` label: `f'({func_name})'`, colorized
when `isatty`, followed by a space; empty for a falsy label. -/
def funcHeaderStr (f : String) (isatty : Bool) (norm : String → String) : String :=
  if f = "" then ""
  else
    (if isatty then "\x1b[0;36m" ++ ("(" ++ norm f ++ ")") ++ "\x1b[0m"
     else "(" ++ norm f ++ ")") ++ " "

def customErrorText (message : Option String) (function : Option String)
    (kwargs : List (String × String)) (isatty : Bool) (norm : String → String) :
    Except Unit (Option String) :=
  match message with
  | none => Except.ok none
  | some msg =>
    match formatTemplate msg kwargs with
    | Except.error e => Except.error e
    | Except.ok formatted =>
      let funcHeader :=
        match function with
        | none => ""
        | some f => funcHeaderStr f isatty norm
      Except.ok (some (funcHeader ++ formatted))

/-! ### `FramePropError` and `get_prop` (`src/vstools/utils/props.py`) -/

/-- Modelled from the spec: `FramePropError` (module `vstools.exceptions`,
not under `src/`) is the property-specific error type, constructed as
`FramePropError(func, key, message?, **kwargs)`.  Per the spec it is a
Key-category error that always carries the property key and renders its
message through the `CustomError` initializer, substituting the key and the
extra keyword values into the template. -/
structure FramePropError where
  func : String
  key : String
  message : String
  kwargs : List (String × String)
  deriving DecidableEq, Repr

/-- Modelled from the spec: the default message used when `FramePropError`
is raised with no explicit template (the unknown-failure wrap); the spec
requires only that the rendered message include the property key. -/
def framePropErrorDefaultMessage : String :=
  "Error while trying to get frame prop {key}!"

def mkFramePropError (func key message : String) (kwargs : List (String × String)) :
    FramePropError :=
  ⟨func, key, message, kwargs⟩

/-- Modelled from the spec: rendering a `FramePropError` forwards
`(message, func, key=key, **kwargs)` to the `CustomError` initializer. -/
def FramePropError.renderText (e : FramePropError) (isatty : Bool) (norm : String → String) :
    Except Unit (Option String) :=
  customErrorText (some e.message) (some e.func) (("key", e.key) :: e.kwargs) isatty norm

/-- Message template raised by `get_prop` for an absent key
(`props.py` line 105). -/
def missingKeyTemplate : String := "Key {key} not present in props!"

/-- Message template raised by `get_prop` for a present key of the wrong
runtime type (`props.py` line 108). -/
def wrongTypeTemplate : String :=
  "Key {key} did not contain expected type: Expected {t} got {prop_t}!"

/-- Python exceptions, grouped by how `get_prop`'s handler classifies them:
`KeyError`, `TypeError`, any other `Exception`, and a `BaseException` that is
not an `Exception` (e.g. `KeyboardInterrupt`) - the handler catches
`BaseException`, so all four are caught. -/
inductive PyExc where
  | keyError
  | typeError
  | valueError
  | otherExc
  | baseExc
  deriving DecidableEq, Repr

/-- Frame: per-frame payload (`content`, preserved verbatim by property
merging) plus the frame-property container. -/
structure VideoFrame where
  content : Nat
  props : PropMap
  deriving DecidableEq, Repr, Inhabited

/-- Node: a finite clip, one frame per index. -/
structure VideoNode where
  frames : List VideoFrame
  deriving DecidableEq, Repr, Inhabited

/-- Argument accepted by `get_prop` as `obj`: a node, a frame, or a raw
property container (`HoldsPropValueT`). -/
inductive HoldsPropValue where
  | node (n : VideoNode)
  | frame (f : VideoFrame)
  | props (m : PropMap)

/-- Resolution of `obj` to a property container (`props.py` lines 79-84):
a node materializes its first frame (`obj.get_frame(0).props`, which raises
on an empty clip - `none` here), a frame exposes its own container, anything
else is used as the container. -/
def resolveProps : HoldsPropValue → Option PropMap
  | .node n => (List.head? n.frames).map (·.props)
  | .frame f => some f.props
  | .props m => some m

/-- Modelled from the spec: `PropEnum` (module `vstools.enums`, not under
`src/`) is a closed enumeration of well-known property identifiers, each
carrying a canonical string key `prop_key`. -/
structure PropEnum where
  prop_key : String
  deriving DecidableEq, Repr

/-- Key argument of `get_prop`: a plain string or a `PropEnum` member. -/
inductive PropKeyArg where
  | str (s : String)
  | enum (e : PropEnum)
  deriving DecidableEq, Repr

/-- Key resolution (`props.py` lines 86-87): a `PropEnum` member is replaced
by its canonical string key. -/
def resolveKey : PropKeyArg → String
  | .str s => s
  | .enum e => e.prop_key

/-- Successful outcome of `get_prop`: a property value (raw, or the result
of the cast) or the caller-supplied default. -/
inductive GetPropResult (δ : Type) where
  | propValue (v : PVal)
  | defaulted (d : δ)
  deriving DecidableEq, Repr

/-- Exception leaving `get_prop`: a `FramePropError` raised by its handler,
or an exception propagating from outside the `try` block (frame
materialization). -/
inductive GetPropRaise where
  | uncaught (e : PyExc)
  | propError (e : FramePropError)
  deriving DecidableEq, Repr

/-- Shallow embedding of `get_prop` (`props.py` lines 54-114).

`cast` models the caller-supplied cast callable, which may itself raise
(hence `Except`); `default : Option δ` models the `MISSING` sentinel as
`none` (so `some d` is a supplied default, valid even when `d` is a `None`
or falsy value of the caller's type `δ`); `func` models the optional origin
label, defaulted to the accessor's own name via `fallback(func, get_prop)`.

The `try` body assigns `prop` (kept as `Option PVal`, `none` standing for
the `MISSING` sentinel before assignment), raises `KeyError` on an absent
key, raises `TypeError` on an `isinstance` failure, and otherwise returns
the raw or cast value.  The handler catches every `BaseException`: with a
supplied default it returns it; otherwise it classifies the failure with
`if isinstance(e, KeyError) or prop is MISSING / elif isinstance(e,
TypeError) / else` (the classification below matches on `prop` first, which
decides the same disjunction). -/
def get_prop {δ : Type} (obj : HoldsPropValue) (key : PropKeyArg) (t : PType)
    (cast : Option (PVal → Except PyExc PVal)) (default : Option δ)
    (func : Option String) : Except GetPropRaise (GetPropResult δ) :=
  let funcL := func.getD "get_prop"
  match resolveProps obj with
  | none => Except.error (.uncaught PyExc.otherExc)
  | some props =>
    let k := resolveKey key
    let tryResult : Except (PyExc × Option PVal) (GetPropResult δ) :=
      match PropMap.lookup props k with
      | none => Except.error (PyExc.keyError, none)
      | some prop =>
        if isinstance prop t then
          match cast with
          | none => Except.ok (.propValue prop)
          | some c =>
            match c prop with
            | Except.ok w => Except.ok (.propValue w)
            | Except.error e => Except.error (e, some prop)
        else Except.error (PyExc.typeError, some prop)
    match tryResult with
    | Except.ok r => Except.ok r
    | Except.error (e, prop) =>
      match default with
      | some d => Except.ok (.defaulted d)
      | none =>
        Except.error (.propError (
          match prop with
          | none => mkFramePropError funcL k missingKeyTemplate []
          | some p =>
            if e = PyExc.keyError then
              mkFramePropError funcL k missingKeyTemplate []
            else if e = PyExc.typeError then
              mkFramePropError funcL k wrongTypeTemplate
                [("t", t.pyStr), ("prop_t", p.ptype.pyStr)]
            else
              mkFramePropError funcL k framePropErrorDefaultMessage []))

/-! ### `merge_clip_props` (`props.py` lines 117-132) -/

/-- Inner callback `_merge_props`: copy the `main_idx`-th input frame, then
`fdst.props.update(frame.props)` for every other input in order (`n`, the
frame index, is unused by the source callback). -/
def _merge_props (main_idx : Nat) (f : List VideoFrame) (_n : Nat) : VideoFrame :=
  let fdst := List.getD f main_idx default
  { content := fdst.content
    props := List.foldl
      (fun acc p => if p.1 = main_idx then acc else PropMap.update acc p.2.props)
      fdst.props (List.enum f) }

/-- Engine primitive `base.std.ModifyFrame(clips, fn)`: one output frame per
frame of `base`, produced as a pure function of the input clips' frames at
the same index. -/
def ModifyFrame (base : VideoNode) (clips : List VideoNode)
    (fn : List VideoFrame → Nat → VideoFrame) : VideoNode :=
  ⟨List.map (fun n => fn (List.map (fun c => List.getD c.frames n default) clips) n)
    (List.range base.frames.length)⟩

/-- Shallow embedding of `merge_clip_props`: a single clip is returned
unchanged; otherwise `clips[0].std.ModifyFrame(clips, _merge_props)`.
(The source subscripts `clips[0]`, so a call with zero clips raises and is
outside the modelled domain.) -/
def merge_clip_props (clips : List VideoNode) (main_idx : Nat) : VideoNode :=
  if clips.length = 1 then List.getD clips 0 default
  else ModifyFrame (List.getD clips 0 default) clips (fun f n => _merge_props main_idx f n)

/-- Definition following the spec's words for the property-merge claim: the
per-key result of merging the per-frame containers `containers` "starts as a
copy of the `main_index`-th input's container, then is updated (key-by-key
overwrite, last-write-wins in input order, skipping `main_index` itself)":
the value of `k` in the last non-main container holding it, else the main
container's value of `k`. -/
def mergeSpecLookup (containers : List PropMap) (mainIdx : Nat) (k : String) : Option PVal :=
  Option.or
    (lookupMulti
      (List.map Prod.snd (List.filter (fun p => p.1 != mainIdx) (List.enum containers))) k)
    (PropMap.lookup (List.getD containers mainIdx default) k)

/-- Substring containment: `sub` occurs contiguously inside `s` (Python
`sub in s`). -/
def strContains (s sub : String) : Prop :=
  sub.data <:+: s.data

/-! ## Library lemmas -/

theorem PropMap.lookup_nil (k : String) :
    PropMap.lookup ([] : List (String × PVal)) k = none := rfl

theorem PropMap.lookup_cons (p : String × PVal) (m : List (String × PVal)) (k : String) :
    PropMap.lookup (p :: m) k = if p.1 == k then some p.2 else PropMap.lookup m k := by
  by_cases h : p.1 == k <;> simp [PropMap.lookup, List.find?_cons, h]

theorem PropMap.lookup_setItem_self (m : PropMap) (k : String) (v : PVal) :
    PropMap.lookup (PropMap.setItem m k v) k = some v := by
  induction m with
  | nil => simp [PropMap.setItem, PropMap.lookup, List.find?]
  | cons p rest ih =>
    by_cases h : p.1 == k
    · simp [PropMap.setItem, h, PropMap.lookup_cons]
    · simp [PropMap.setItem, h, PropMap.lookup_cons, ih]

theorem PropMap.lookup_setItem_ne (m : PropMap) (k : String) (v : PVal) (k' : String)
    (h : k' ≠ k) :
    PropMap.lookup (PropMap.setItem m k v) k' = PropMap.lookup m k' := by
  induction m with
  | nil =>
    have : (k == k') = false := by simpa using (Ne.symm h)
    simp [PropMap.setItem, PropMap.lookup, List.find?, this]
  | cons p rest ih =>
    by_cases hp : p.1 == k
    · have hp' : p.1 = k := by simpa using hp
      have : (p.1 == k') = false := by simp [hp', Ne.symm h]
      simp [PropMap.setItem, hp, PropMap.lookup_cons, this]
    · by_cases hk : p.1 == k'
      · simp [PropMap.setItem, hp, PropMap.lookup_cons, hk]
      · simp [PropMap.setItem, hp, PropMap.lookup_cons, hk, ih]

theorem PropMap.lookupLast_nil (k : String) :
    PropMap.lookupLast ([] : List (String × PVal)) k = none := rfl

theorem PropMap.lookupLast_cons (p : String × PVal) (m : List (String × PVal)) (k : String) :
    PropMap.lookupLast (p :: m) k =
      Option.or (PropMap.lookupLast m k) (if p.1 == k then some p.2 else none) := by
  simp only [PropMap.lookupLast, List.reverse_cons, List.find?_append]
  cases hfind : List.find? (fun q => q.1 == k) (List.reverse m) with
  | none =>
    by_cases h : p.1 == k <;> simp [List.find?_cons, h]
  | some q => simp

theorem PropMap.lookup_update (d s : PropMap) (k : String) :
    PropMap.lookup (PropMap.update d s) k =
      Option.or (PropMap.lookupLast s k) (PropMap.lookup d k) := by
  induction s generalizing d with
  | nil => simp [PropMap.update, PropMap.lookupLast_nil, Option.or]
  | cons p rest ih =>
    have hstep : PropMap.update d (p :: rest) = PropMap.update (PropMap.setItem d p.1 p.2) rest := rfl
    rw [hstep, ih, PropMap.lookupLast_cons]
    by_cases h : p.1 == k
    · have hk : k = p.1 := (eq_of_beq h).symm
      have hset : PropMap.lookup (PropMap.setItem d p.1 p.2) k = some p.2 := by
        rw [hk]; exact PropMap.lookup_setItem_self d p.1 p.2
      rw [hset, if_pos h, Option.or_assoc, Option.or_some]
    · have hk : k ≠ p.1 := fun he => by simp [he] at h
      rw [PropMap.lookup_setItem_ne d p.1 p.2 k hk, if_neg h, Option.or_none]

theorem PropMap.lookup_foldl_update (d : PropMap) (maps : List PropMap) (k : String) :
    PropMap.lookup (List.foldl PropMap.update d maps) k =
      Option.or (lookupMulti maps k) (PropMap.lookup d k) := by
  induction maps generalizing d with
  | nil => simp [lookupMulti, Option.or]
  | cons m rest ih =>
    have hsingle : List.findSome? (fun q => PropMap.lookupLast q k) [m] =
        PropMap.lookupLast m k := by
      cases h : PropMap.lookupLast m k <;> simp [List.findSome?_cons, h]
    have hmulti : lookupMulti (m :: rest) k =
        Option.or (lookupMulti rest k) (PropMap.lookupLast m k) := by
      simp only [lookupMulti, List.reverse_cons, List.findSome?_append, hsingle]
    rw [List.foldl_cons, ih, PropMap.lookup_update, hmulti, Option.or_assoc]

theorem PropMap.lookup_eq_none_iff (m : PropMap) (k : String) :
    PropMap.lookup m k = none ↔ ∀ p ∈ m, (p.1 == k) = false := by
  simp [PropMap.lookup, List.find?_eq_none]

theorem PropMap.lookupLast_eq_none_iff (m : PropMap) (k : String) :
    PropMap.lookupLast m k = none ↔ ∀ p ∈ m, (p.1 == k) = false := by
  simp [PropMap.lookupLast, List.find?_eq_none]

theorem PropMap.lookupLast_eq_lookup_of_nodup (m : PropMap) (k : String)
    (h : (List.map Prod.fst m).Nodup) :
    PropMap.lookupLast m k = PropMap.lookup m k := by
  induction m with
  | nil => rfl
  | cons p rest ih =>
    rw [List.map_cons, List.nodup_cons] at h
    obtain ⟨hnotmem, hrest⟩ := h
    rw [PropMap.lookupLast_cons, PropMap.lookup_cons, ih hrest]
    by_cases hp : p.1 == k
    · have hk : p.1 = k := eq_of_beq hp
      have hnone : PropMap.lookup rest k = none := by
        rw [PropMap.lookup_eq_none_iff]
        intro q hq
        by_contra hq'
        have : (q.1 == k) = true := by
          cases hb : q.1 == k
          · exact absurd hb hq'
          · rfl
        have : q.1 = p.1 := by rw [eq_of_beq this, hk]
        exact hnotmem (this ▸ List.mem_map_of_mem Prod.fst hq)
      rw [hnone, hp, if_pos rfl]
      rfl
    · rw [if_neg (by simp [hp]), if_neg (by simp [hp]), Option.or_none]

theorem foldl_skip_eq_foldl_filter {α β : Type} (p : β → Bool) (f : α → β → α)
    (l : List β) (init : α) :
    List.foldl (fun acc b => if p b then f acc b else acc) init l =
      List.foldl f init (List.filter p l) := by
  induction l generalizing init with
  | nil => rfl
  | cons b bs ih =>
    by_cases h : p b <;> simp [List.filter_cons, h, ih]

theorem strContains_middle (a b c : String) : strContains (a ++ (b ++ c)) b := by
  refine ⟨a.data, c.data, ?_⟩
  simp [strContains]

theorem strContains_of_right (a b sub : String) (h : strContains b sub) :
    strContains (a ++ b) sub := by
  obtain ⟨s, t, hst⟩ := h
  exact ⟨a.data ++ s, t, by rw [String.data_append, ← hst]; simp [List.append_assoc]⟩

theorem formatTemplate_missingKey (k : String) :
    formatTemplate missingKeyTemplate [("key", k)] =
      Except.ok ("Key " ++ (k ++ " not present in props!")) := rfl

theorem formatTemplate_wrongType (k tv pv : String) :
    formatTemplate wrongTypeTemplate [("key", k), ("t", tv), ("prop_t", pv)] =
      Except.ok ("Key " ++ (k ++ (" did not contain expected type: Expected " ++
        (tv ++ (" got " ++ (pv ++ "!")))))) := rfl

theorem formatTemplate_generic (k : String) :
    formatTemplate framePropErrorDefaultMessage [("key", k)] =
      Except.ok ("Error while trying to get frame prop " ++ (k ++ "!")) := rfl

theorem customErrorText_some_some (msg f : String) (kwargs : List (String × String))
    (isatty : Bool) (norm : String → String) (s : String)
    (h : formatTemplate msg kwargs = Except.ok s) :
    customErrorText (some msg) (some f) kwargs isatty norm =
      Except.ok (some (funcHeaderStr f isatty norm ++ s)) := by
  simp [customErrorText, h]

/-! ## Claims -/

/-- C7: every instance of each of the five error variants
(`CustomValueError`, `CustomKeyError`, `CustomTypeError`,
`CustomRuntimeError`, `CustomPermissionError`) is simultaneously an instance
of `CustomError` and of the matching standard exception category, so it is
catchable via either hierarchy. -/
theorem custom_error_variants_dual_hierarchy :
    (ExcClass.isSubclassOf .customValueError .customError = true
      ∧ ExcClass.isSubclassOf .customValueError .valueError = true)
    ∧ (ExcClass.isSubclassOf .customKeyError .customError = true
      ∧ ExcClass.isSubclassOf .customKeyError .keyError = true)
    ∧ (ExcClass.isSubclassOf .customTypeError .customError = true
      ∧ ExcClass.isSubclassOf .customTypeError .typeError = true)
    ∧ (ExcClass.isSubclassOf .customRuntimeError .customError = true
      ∧ ExcClass.isSubclassOf .customRuntimeError .runtimeError = true)
    ∧ (ExcClass.isSubclassOf .customPermissionError .customError = true
      ∧ ExcClass.isSubclassOf .customPermissionError .permissionError = true) := by
  decide

/-- C10: constructing a `CustomError` (or any variant) with `message=None`
ignores the function label and all keyword substitutions entirely - the
error carries no text and no parenthesized function header even when a
function label is supplied. -/
theorem customError_none_message_ignores_function (f : Option String)
    (kwargs : List (String × String)) (isatty : Bool) (norm : String → String) :
    customErrorText none f kwargs isatty norm = Except.ok none := rfl

/-- C8: with `message=None` the error carries no text; otherwise the stored
message is the template with every named placeholder substituted by the
corresponding keyword value (the message having been converted to its string
representation - the `String` carrier of `msg`), and a supplied (truthy)
function label is prepended in parenthesized, normalized form before the
formatted message. -/
theorem customError_message_formatting (msg : String) (kwargs : List (String × String))
    (isatty : Bool) (norm : String → String) (s : String)
    (hfmt : formatTemplate msg kwargs = Except.ok s) :
    (∀ (f : Option String) (kw2 : List (String × String)),
        customErrorText none f kw2 isatty norm = Except.ok none)
    ∧ customErrorText (some msg) none kwargs isatty norm = Except.ok (some s)
    ∧ (∀ f : String, f ≠ "" →
        customErrorText (some msg) (some f) kwargs isatty norm =
          Except.ok (some (funcHeaderStr f isatty norm ++ s)))
    ∧ (∀ f : String, f ≠ "" →
        funcHeaderStr f false norm = ("(" ++ norm f ++ ")") ++ " ") := by
  refine ⟨fun f kw2 => rfl, ?_, ?_, ?_⟩
  · simp [customErrorText, hfmt]
  · intro f hf
    exact customErrorText_some_some msg f kwargs isatty norm s hfmt
  · intro f hf
    simp [funcHeaderStr, hf]

theorem customError_message_formatting_witness :
    customErrorText (some missingKeyTemplate) (some "outer") [("key", "K")] false id =
      Except.ok (some (funcHeaderStr "outer" false id ++
        ("Key " ++ ("K" ++ " not present in props!")))) :=
  (customError_message_formatting missingKeyTemplate [("key", "K")] false id
    ("Key " ++ ("K" ++ " not present in props!")) rfl).2.2.1 "outer" (by decide)

/-- C1: `get_prop` with a supplied default `D` (valid even for `None`-like,
zero or empty values of the caller's type) returns `D` whenever the key is
absent from the resolved property container or present with a value that is
not an instance of the expected type. -/
theorem get_prop_default_on_missing_or_mismatch {δ : Type} (obj : HoldsPropValue)
    (key : PropKeyArg) (t : PType) (cast : Option (PVal → Except PyExc PVal))
    (d : δ) (func : Option String) (props : PropMap)
    (hres : resolveProps obj = some props)
    (hfail : PropMap.lookup props (resolveKey key) = none
      ∨ ∃ v, PropMap.lookup props (resolveKey key) = some v ∧ isinstance v t = false) :
    get_prop obj key t cast (some d) func = Except.ok (GetPropResult.defaulted d) := by
  rcases hfail with hl | ⟨v, hl, hi⟩
  · simp [get_prop, hres, hl]
  · simp [get_prop, hres, hl, hi]

theorem get_prop_default_on_missing_or_mismatch_witness :
    get_prop (HoldsPropValue.props []) (PropKeyArg.str "key1") PType.tInt none
      (some (-1 : Int)) none = Except.ok (GetPropResult.defaulted (-1)) :=
  get_prop_default_on_missing_or_mismatch (HoldsPropValue.props []) (PropKeyArg.str "key1")
    PType.tInt none (-1 : Int) none [] rfl (Or.inl rfl)

/-- C3: the `isinstance` check precedes the cast: `C` is invoked only on a
value that is an instance of the expected type (two casts agreeing on such
values yield identical results, so a wrong-typed or missing value never
reaches the cast), on success with a cast the call returns `C(value)`, and
with `cast=None` it returns the raw value. -/
theorem get_prop_cast_gating {δ : Type} (obj : HoldsPropValue) (key : PropKeyArg)
    (t : PType) (default : Option δ) (func : Option String) (props : PropMap)
    (hres : resolveProps obj = some props) :
    (∀ (v w : PVal) (c : PVal → Except PyExc PVal),
        PropMap.lookup props (resolveKey key) = some v → isinstance v t = true →
        c v = Except.ok w →
        get_prop obj key t (some c) default func = Except.ok (GetPropResult.propValue w))
    ∧ (∀ v : PVal, PropMap.lookup props (resolveKey key) = some v → isinstance v t = true →
        get_prop obj key t none default func = Except.ok (GetPropResult.propValue v))
    ∧ (∀ c₁ c₂ : PVal → Except PyExc PVal,
        (∀ v, isinstance v t = true → c₁ v = c₂ v) →
        get_prop (δ := δ) obj key t (some c₁) default func =
          get_prop obj key t (some c₂) default func) := by
  refine ⟨?_, ?_, ?_⟩
  · intro v w c hl hi hc
    simp [get_prop, hres, hl, hi, hc]
  · intro v hl hi
    simp [get_prop, hres, hl, hi]
  · intro c₁ c₂ hagree
    cases hl : PropMap.lookup props (resolveKey key) with
    | none => simp [get_prop, hres, hl]
    | some v =>
      by_cases hi : isinstance v t
      · simp [get_prop, hres, hl, hi, hagree v hi]
      · simp [get_prop, hres, hl, hi]

theorem get_prop_cast_gating_witness :
    get_prop (δ := String) (HoldsPropValue.props [("key1", PVal.pint 5)])
      (PropKeyArg.str "key1") PType.tInt (some (fun _ => Except.ok (PVal.pstr "5")))
      (some "x") none = Except.ok (GetPropResult.propValue (PVal.pstr "5")) :=
  (get_prop_cast_gating (HoldsPropValue.props [("key1", PVal.pint 5)]) (PropKeyArg.str "key1")
    PType.tInt (some "x") none [("key1", PVal.pint 5)] rfl).1
    (PVal.pint 5) (PVal.pstr "5") (fun _ => Except.ok (PVal.pstr "5")) rfl rfl rfl

/-- C9: whenever a default (other than the `MISSING` sentinel) is supplied,
`get_prop` never raises from the lookup, type-check or cast steps: an absent
key, an `isinstance` failure, and any exception raised by the caller-supplied
cast on a value that passed the type check - including non-`Exception`
`BaseException`s (`PyExc.baseExc`) - all result in the default being
returned, and every call with a supplied default returns normally. -/
theorem get_prop_with_default_never_raises {δ : Type} (obj : HoldsPropValue)
    (key : PropKeyArg) (t : PType) (d : δ) (func : Option String) (props : PropMap)
    (hres : resolveProps obj = some props) :
    (PropMap.lookup props (resolveKey key) = none →
      ∀ cast : Option (PVal → Except PyExc PVal),
        get_prop obj key t cast (some d) func = Except.ok (GetPropResult.defaulted d))
    ∧ (∀ v : PVal, PropMap.lookup props (resolveKey key) = some v → isinstance v t = false →
      ∀ cast : Option (PVal → Except PyExc PVal),
        get_prop obj key t cast (some d) func = Except.ok (GetPropResult.defaulted d))
    ∧ (∀ (v : PVal) (c : PVal → Except PyExc PVal) (ex : PyExc),
        PropMap.lookup props (resolveKey key) = some v → isinstance v t = true →
        c v = Except.error ex →
        get_prop obj key t (some c) (some d) func = Except.ok (GetPropResult.defaulted d))
    ∧ (∀ cast : Option (PVal → Except PyExc PVal),
        ∃ r, get_prop obj key t cast (some d) func = Except.ok r) := by
  refine ⟨?_, ?_, ?_, ?_⟩
  · intro hl cast
    simp [get_prop, hres, hl]
  · intro v hl hi cast
    simp [get_prop, hres, hl, hi]
  · intro v c ex hl hi hc
    simp [get_prop, hres, hl, hi, hc]
  · intro cast
    cases hl : PropMap.lookup props (resolveKey key) with
    | none => exact ⟨GetPropResult.defaulted d, by simp [get_prop, hres, hl]⟩
    | some v =>
      by_cases hi : isinstance v t
      · cases cast with
        | none => exact ⟨GetPropResult.propValue v, by simp [get_prop, hres, hl, hi]⟩
        | some c =>
          cases hc : c v with
          | ok w => exact ⟨GetPropResult.propValue w, by simp [get_prop, hres, hl, hi, hc]⟩
          | error e => exact ⟨GetPropResult.defaulted d, by simp [get_prop, hres, hl, hi, hc]⟩
      · exact ⟨GetPropResult.defaulted d, by simp [get_prop, hres, hl, hi]⟩

theorem get_prop_with_default_never_raises_witness :
    get_prop (δ := Nat) (HoldsPropValue.props [("a", PVal.pint 1)])
      (PropKeyArg.str "a") PType.tInt (some (fun _ => Except.error PyExc.baseExc))
      (some 0) none = Except.ok (GetPropResult.defaulted 0) :=
  (get_prop_with_default_never_raises (δ := Nat)
    (HoldsPropValue.props [("a", PVal.pint 1)]) (PropKeyArg.str "a") PType.tInt
    0 none [("a", PVal.pint 1)] rfl).2.2.1
    (PVal.pint 1) (fun _ => Except.error PyExc.baseExc) PyExc.baseExc rfl rfl rfl

/-- C6: `merge_clip_props` with a single input returns the identical node
(the function returns `clips[0]` itself, not a copy), regardless of the
`main_idx` argument. -/
theorem merge_clip_props_single_identity (n : VideoNode) (main_idx : Nat) :
    merge_clip_props [n] main_idx = n := rfl

theorem strContains_middle_assoc (a b c : String) : strContains ((a ++ b) ++ c) b := by
  refine ⟨a.data, c.data, ?_⟩
  simp [strContains]

theorem strContains_self_left (a b : String) : strContains (a ++ b) a := by
  refine ⟨[], b.data, ?_⟩
  simp [strContains]

theorem strContains_trans (s mid sub : String) (h1 : strContains s mid)
    (h2 : strContains mid sub) : strContains s sub :=
  List.IsInfix.trans h2 h1

theorem pyStr_contains_name (t : PType) : strContains t.pyStr t.name :=
  strContains_middle_assoc "<class \x27" t.name "\x27>"

theorem missing_ne_wrongType : missingKeyTemplate ≠ wrongTypeTemplate := by decide

theorem missing_ne_generic : missingKeyTemplate ≠ framePropErrorDefaultMessage := by decide

theorem wrongType_ne_generic : wrongTypeTemplate ≠ framePropErrorDefaultMessage := by decide

theorem renderText_missing (funcL k : String) (isatty : Bool) (norm : String → String) :
    ∃ s, FramePropError.renderText (mkFramePropError funcL k missingKeyTemplate [])
        isatty norm = Except.ok (some s)
      ∧ strContains s k := by
  refine ⟨funcHeaderStr funcL isatty norm ++ ("Key " ++ (k ++ " not present in props!")), ?_, ?_⟩
  · exact customErrorText_some_some missingKeyTemplate funcL [("key", k)] isatty norm _
      (formatTemplate_missingKey k)
  · exact strContains_of_right _ _ _ (strContains_middle "Key " k " not present in props!")

theorem renderText_wrongType (funcL k tv pv : String) (isatty : Bool)
    (norm : String → String) :
    ∃ s, FramePropError.renderText
        (mkFramePropError funcL k wrongTypeTemplate [("t", tv), ("prop_t", pv)])
        isatty norm = Except.ok (some s)
      ∧ strContains s k ∧ strContains s tv ∧ strContains s pv := by
  refine ⟨funcHeaderStr funcL isatty norm ++
    ("Key " ++ (k ++ (" did not contain expected type: Expected " ++
      (tv ++ (" got " ++ (pv ++ "!")))))), ?_, ?_, ?_, ?_⟩
  · exact customErrorText_some_some wrongTypeTemplate funcL
      [("key", k), ("t", tv), ("prop_t", pv)] isatty norm _
      (formatTemplate_wrongType k tv pv)
  · exact strContains_of_right _ _ _ (strContains_middle "Key " k _)
  · refine strContains_of_right _ _ _ (strContains_of_right "Key " _ _ ?_)
    refine strContains_of_right k _ _ ?_
    exact strContains_of_right _ _ _ (strContains_self_left tv _)
  · refine strContains_of_right _ _ _ (strContains_of_right "Key " _ _ ?_)
    refine strContains_of_right k _ _ ?_
    refine strContains_of_right _ _ _ ?_
    refine strContains_of_right tv _ _ ?_
    exact strContains_of_right _ _ _ (strContains_self_left pv "!")

theorem renderText_generic (funcL k : String) (isatty : Bool) (norm : String → String) :
    ∃ s, FramePropError.renderText (mkFramePropError funcL k framePropErrorDefaultMessage [])
        isatty norm = Except.ok (some s)
      ∧ strContains s k := by
  refine ⟨funcHeaderStr funcL isatty norm ++
    ("Error while trying to get frame prop " ++ (k ++ "!")), ?_, ?_⟩
  · exact customErrorText_some_some framePropErrorDefaultMessage funcL [("key", k)] isatty norm _
      (formatTemplate_generic k)
  · exact strContains_of_right _ _ _ (strContains_middle _ k "!")

/-- C2: `get_prop` with no default raises a `FramePropError` whose rendered
message contains the literal (resolved) key string when the key is absent,
and contains both the expected type's name and the actual value's type name
when the key is present with a wrong-typed value. -/
theorem get_prop_no_default_error_messages {δ : Type} (obj : HoldsPropValue)
    (key : PropKeyArg) (t : PType) (cast : Option (PVal → Except PyExc PVal))
    (func : Option String) (props : PropMap)
    (hres : resolveProps obj = some props) (isatty : Bool) (norm : String → String) :
    (PropMap.lookup props (resolveKey key) = none →
      ∃ e s, get_prop (δ := δ) obj key t cast none func =
          Except.error (GetPropRaise.propError e)
        ∧ FramePropError.renderText e isatty norm = Except.ok (some s)
        ∧ strContains s (resolveKey key))
    ∧ (∀ v : PVal, PropMap.lookup props (resolveKey key) = some v → isinstance v t = false →
      ∃ e s, get_prop (δ := δ) obj key t cast none func =
          Except.error (GetPropRaise.propError e)
        ∧ FramePropError.renderText e isatty norm = Except.ok (some s)
        ∧ strContains s t.name ∧ strContains s v.ptype.name) := by
  constructor
  · intro hl
    obtain ⟨s, hrender, hcontains⟩ :=
      renderText_missing (func.getD "get_prop") (resolveKey key) isatty norm
    exact ⟨mkFramePropError (func.getD "get_prop") (resolveKey key) missingKeyTemplate [],
      s, by simp [get_prop, hres, hl], hrender, hcontains⟩
  · intro v hl hi
    obtain ⟨s, hrender, hk, ht, hp⟩ :=
      renderText_wrongType (func.getD "get_prop") (resolveKey key) t.pyStr v.ptype.pyStr
        isatty norm
    refine ⟨mkFramePropError (func.getD "get_prop") (resolveKey key) wrongTypeTemplate
      [("t", t.pyStr), ("prop_t", v.ptype.pyStr)], s, by simp [get_prop, hres, hl, hi],
      hrender, ?_, ?_⟩
    · exact strContains_trans s t.pyStr t.name ht (pyStr_contains_name t)
    · exact strContains_trans s v.ptype.pyStr v.ptype.name hp (pyStr_contains_name v.ptype)

theorem get_prop_no_default_error_messages_witness :
    ∃ e s, get_prop (δ := Unit) (HoldsPropValue.props []) (PropKeyArg.str "K") PType.tInt
        none none none = Except.error (GetPropRaise.propError e)
      ∧ FramePropError.renderText e false id = Except.ok (some s)
      ∧ strContains s "K" :=
  (get_prop_no_default_error_messages (δ := Unit) (HoldsPropValue.props [])
    (PropKeyArg.str "K") PType.tInt none none [] rfl false id).1 rfl

/-- C5: an exception during lookup or casting that is not a recognized
missing-key or type-mismatch condition is wrapped into the same
`FramePropError` type without detailed type information; every
`FramePropError` leaving `get_prop` reports exactly one of missing-key,
wrong-type or unknown-failure, always carries the property key (also in its
rendered message), and carries expected and actual type exactly when it
reports wrong-type. -/
theorem get_prop_error_uniformity {δ : Type} (obj : HoldsPropValue) (key : PropKeyArg)
    (t : PType) (func : Option String) (props : PropMap)
    (hres : resolveProps obj = some props) :
    (∀ (c : PVal → Except PyExc PVal) (v : PVal) (ex : PyExc),
        PropMap.lookup props (resolveKey key) = some v → isinstance v t = true →
        c v = Except.error ex → ex ≠ PyExc.keyError → ex ≠ PyExc.typeError →
        get_prop (δ := δ) obj key t (some c) none func =
          Except.error (GetPropRaise.propError
            (mkFramePropError (func.getD "get_prop") (resolveKey key)
              framePropErrorDefaultMessage [])))
    ∧ (∀ (cast : Option (PVal → Except PyExc PVal)) (e : FramePropError),
        get_prop (δ := δ) obj key t cast none func =
          Except.error (GetPropRaise.propError e) →
        e.key = resolveKey key
        ∧ ((e.message = missingKeyTemplate ∧ e.message ≠ wrongTypeTemplate
              ∧ e.message ≠ framePropErrorDefaultMessage)
           ∨ (e.message = wrongTypeTemplate ∧ e.message ≠ missingKeyTemplate
              ∧ e.message ≠ framePropErrorDefaultMessage)
           ∨ (e.message = framePropErrorDefaultMessage ∧ e.message ≠ missingKeyTemplate
              ∧ e.message ≠ wrongTypeTemplate))
        ∧ (e.message = wrongTypeTemplate →
            ∃ v, PropMap.lookup props (resolveKey key) = some v
              ∧ e.kwargs = [("t", PType.pyStr t), ("prop_t", PType.pyStr v.ptype)])
        ∧ (e.message ≠ wrongTypeTemplate → e.kwargs = [])
        ∧ (∀ (isatty : Bool) (norm : String → String),
            ∃ s, FramePropError.renderText e isatty norm = Except.ok (some s)
              ∧ strContains s (resolveKey key))) := by
  constructor
  · intro c v ex hl hi hc hk ht
    cases ex with
    | keyError => exact absurd rfl hk
    | typeError => exact absurd rfl ht
    | valueError => simp [get_prop, hres, hl, hi, hc]
    | otherExc => simp [get_prop, hres, hl, hi, hc]
    | baseExc => simp [get_prop, hres, hl, hi, hc]
  · intro cast e he
    cases hl : PropMap.lookup props (resolveKey key) with
    | none =>
      simp [get_prop, hres, hl] at he
      subst he
      refine ⟨rfl, Or.inl ⟨rfl, missing_ne_wrongType, missing_ne_generic⟩, ?_,
        fun _ => rfl, ?_⟩
      · intro hmsg
        exact absurd hmsg missing_ne_wrongType
      · intro isatty norm
        exact renderText_missing (func.getD "get_prop") (resolveKey key) isatty norm
    | some v =>
      by_cases hi : isinstance v t
      · cases cast with
        | none => simp [get_prop, hres, hl, hi] at he
        | some c =>
          cases hc : c v with
          | ok w => simp [get_prop, hres, hl, hi, hc] at he
          | error ex =>
            cases ex with
            | keyError =>
              simp [get_prop, hres, hl, hi, hc] at he
              subst he
              refine ⟨rfl, Or.inl ⟨rfl, missing_ne_wrongType, missing_ne_generic⟩, ?_,
                fun _ => rfl, ?_⟩
              · intro hmsg
                exact absurd hmsg missing_ne_wrongType
              · intro isatty norm
                exact renderText_missing (func.getD "get_prop") (resolveKey key) isatty norm
            | typeError =>
              simp [get_prop, hres, hl, hi, hc] at he
              subst he
              refine ⟨rfl, Or.inr (Or.inl ⟨rfl, Ne.symm missing_ne_wrongType,
                wrongType_ne_generic⟩), fun _ => ⟨v, rfl, rfl⟩, ?_, ?_⟩
              · intro hmsg
                exact absurd rfl hmsg
              · intro isatty norm
                obtain ⟨s, h1, h2, _, _⟩ :=
                  renderText_wrongType (func.getD "get_prop") (resolveKey key)
                    (PType.pyStr t) (PType.pyStr v.ptype) isatty norm
                exact ⟨s, h1, h2⟩
            | valueError =>
              simp [get_prop, hres, hl, hi, hc] at he
              subst he
              refine ⟨rfl, Or.inr (Or.inr ⟨rfl, Ne.symm missing_ne_generic,
                Ne.symm wrongType_ne_generic⟩), ?_, fun _ => rfl, ?_⟩
              · intro hmsg
                exact absurd hmsg (Ne.symm wrongType_ne_generic)
              · intro isatty norm
                exact renderText_generic (func.getD "get_prop") (resolveKey key) isatty norm
            | otherExc =>
              simp [get_prop, hres, hl, hi, hc] at he
              subst he
              refine ⟨rfl, Or.inr (Or.inr ⟨rfl, Ne.symm missing_ne_generic,
                Ne.symm wrongType_ne_generic⟩), ?_, fun _ => rfl, ?_⟩
              · intro hmsg
                exact absurd hmsg (Ne.symm wrongType_ne_generic)
              · intro isatty norm
                exact renderText_generic (func.getD "get_prop") (resolveKey key) isatty norm
            | baseExc =>
              simp [get_prop, hres, hl, hi, hc] at he
              subst he
              refine ⟨rfl, Or.inr (Or.inr ⟨rfl, Ne.symm missing_ne_generic,
                Ne.symm wrongType_ne_generic⟩), ?_, fun _ => rfl, ?_⟩
              · intro hmsg
                exact absurd hmsg (Ne.symm wrongType_ne_generic)
              · intro isatty norm
                exact renderText_generic (func.getD "get_prop") (resolveKey key) isatty norm
      · simp [get_prop, hres, hl, hi] at he
        subst he
        refine ⟨rfl, Or.inr (Or.inl ⟨rfl, Ne.symm missing_ne_wrongType,
          wrongType_ne_generic⟩), fun _ => ⟨v, rfl, rfl⟩, ?_, ?_⟩
        · intro hmsg
          exact absurd rfl hmsg
        · intro isatty norm
          obtain ⟨s, h1, h2, _, _⟩ :=
            renderText_wrongType (func.getD "get_prop") (resolveKey key)
              (PType.pyStr t) (PType.pyStr v.ptype) isatty norm
          exact ⟨s, h1, h2⟩

theorem merge_clip_props_frame (cs : List VideoNode) (main : Nat) (n : Nat)
    (hlen : cs.length ≠ 1) (hn : n < (List.getD cs 0 default).frames.length) :
    List.getD (merge_clip_props cs main).frames n default =
      _merge_props main (List.map (fun c => List.getD c.frames n default) cs) n := by
  simp only [merge_clip_props, if_neg hlen, ModifyFrame]
  rw [List.getD_eq_getElem?_getD, List.getElem?_map, List.getElem?_range hn]
  simp

theorem _merge_props_lookup (main : Nat) (f : List VideoFrame) (n : Nat) (k : String)
    (hmain : main < f.length) :
    PropMap.lookup (_merge_props main f n).props k =
      mergeSpecLookup (List.map VideoFrame.props f) main k := by
  have hfun : (fun (acc : PropMap) (p : Nat × VideoFrame) =>
        if p.1 = main then acc else PropMap.update acc p.2.props) =
      (fun (acc : PropMap) (p : Nat × VideoFrame) =>
        if (p.1 != main) = true then PropMap.update acc p.2.props else acc) := by
    funext acc p
    by_cases h : p.1 = main <;> simp [h]
  have hstep : (_merge_props main f n).props =
      List.foldl PropMap.update (List.getD f main default).props
        (List.map (fun (p : Nat × VideoFrame) => p.2.props)
          (List.filter (fun p => p.1 != main) (List.enum f))) := by
    simp only [_merge_props]
    rw [hfun, foldl_skip_eq_foldl_filter, List.foldl_map]
  have hlist : List.map (fun (p : Nat × VideoFrame) => p.2.props)
        (List.filter (fun p => p.1 != main) (List.enum f)) =
      List.map Prod.snd (List.filter (fun p => p.1 != main)
        (List.enum (List.map VideoFrame.props f))) := by
    rw [List.enum_map, List.filter_map, List.map_map]
    have h1 : ((fun (p : Nat × PropMap) => p.1 != main) ∘ Prod.map id VideoFrame.props)
        = (fun (p : Nat × VideoFrame) => p.1 != main) := by
      funext p
      simp [Prod.map]
    have h2 : (Prod.snd ∘ Prod.map id VideoFrame.props)
        = (fun (p : Nat × VideoFrame) => p.2.props) := by
      funext p
      simp [Prod.map]
    rw [h1, h2]
  have hbase : List.getD (List.map VideoFrame.props f) main default =
      (List.getD f main default).props := by
    rw [List.getD_eq_getElem?_getD, List.getD_eq_getElem?_getD, List.getElem?_map,
      List.getElem?_eq_getElem hmain]
    simp
  rw [hstep, PropMap.lookup_foldl_update, mergeSpecLookup, hlist, hbase]

/-- C4: for `merge_clip_props(a, b, main_idx=0)` and every in-range frame
index, a key only in `a` keeps `a`'s value, a key in both carries `b`'s
value, a key only in `b` is added, and the non-property frame content equals
`a`'s; with any number of inputs the output props follow key-by-key
overwrite in input order, last write wins, skipping `main_idx` itself
(`mergeSpecLookup`). -/
theorem merge_clip_props_spec :
    (∀ (a b : VideoNode) (n : Nat) (k : String),
      n < a.frames.length → n < b.frames.length →
      (List.map Prod.fst (List.getD b.frames n default).props).Nodup →
      ((List.getD (merge_clip_props [a, b] 0).frames n default).content =
          (List.getD a.frames n default).content
        ∧ (PropMap.lookup (List.getD b.frames n default).props k = none →
            PropMap.lookup (List.getD (merge_clip_props [a, b] 0).frames n default).props k =
              PropMap.lookup (List.getD a.frames n default).props k)
        ∧ (∀ v, PropMap.lookup (List.getD b.frames n default).props k = some v →
            PropMap.lookup (List.getD (merge_clip_props [a, b] 0).frames n default).props k =
              some v)))
    ∧ (∀ (cs : List VideoNode) (main m : Nat) (k : String),
        2 ≤ cs.length → main < cs.length →
        m < (List.getD cs 0 default).frames.length →
        PropMap.lookup (List.getD (merge_clip_props cs main).frames m default).props k =
          mergeSpecLookup (List.map (fun c => (List.getD c.frames m default).props) cs)
            main k) := by
  have hmulti : ∀ (cs : List VideoNode) (main m : Nat) (k : String),
      cs.length ≠ 1 → main < cs.length →
      m < (List.getD cs 0 default).frames.length →
      PropMap.lookup (List.getD (merge_clip_props cs main).frames m default).props k =
        mergeSpecLookup (List.map (fun c => (List.getD c.frames m default).props) cs)
          main k := by
    intro cs main m k hlen hmain hm
    rw [merge_clip_props_frame cs main m hlen hm]
    rw [_merge_props_lookup main _ m k (by simpa using hmain)]
    rw [List.map_map]
    rfl
  constructor
  · intro a b n k hna hnb hnodup
    have hlen : ([a, b] : List VideoNode).length ≠ 1 := by simp
    have hframe := merge_clip_props_frame [a, b] 0 n hlen hna
    have hprops : (_merge_props 0 (List.map (fun c => List.getD c.frames n default) [a, b])
          n).props =
        PropMap.update (List.getD a.frames n default).props
          (List.getD b.frames n default).props := rfl
    refine ⟨by rw [hframe]; rfl, ?_, ?_⟩
    · intro hnone
      rw [hframe, hprops, PropMap.lookup_update]
      have hl : PropMap.lookupLast (List.getD b.frames n default).props k = none := by
        rw [PropMap.lookupLast_eq_none_iff]
        exact (PropMap.lookup_eq_none_iff _ k).mp hnone
      rw [hl, Option.none_or]
    · intro v hv
      rw [hframe, hprops, PropMap.lookup_update,
        PropMap.lookupLast_eq_lookup_of_nodup _ _ hnodup, hv, Option.or_some]
  · intro cs main m k h2 hmain hm
    exact hmulti cs main m k (by omega) hmain hm

theorem merge_clip_props_spec_witness :
    PropMap.lookup
      (List.getD (merge_clip_props
        [VideoNode.mk [VideoFrame.mk 10 [("x", PVal.pint 1), ("y", PVal.pint 2)]],
         VideoNode.mk [VideoFrame.mk 20 [("y", PVal.pint 3), ("z", PVal.pint 4)]]] 0).frames
        0 default).props "y" = some (PVal.pint 3)
    ∧ PropMap.lookup
      (List.getD (merge_clip_props
        [VideoNode.mk [VideoFrame.mk 10 [("x", PVal.pint 1)]],
         VideoNode.mk [VideoFrame.mk 20 [("x", PVal.pint 2)]],
         VideoNode.mk [VideoFrame.mk 30 [("x", PVal.pint 5)]]] 0).frames 0 default).props "x" =
      mergeSpecLookup
        [[("x", PVal.pint 1)], [("x", PVal.pint 2)], [("x", PVal.pint 5)]] 0 "x" :=
  ⟨(merge_clip_props_spec.1
      (VideoNode.mk [VideoFrame.mk 10 [("x", PVal.pint 1), ("y", PVal.pint 2)]])
      (VideoNode.mk [VideoFrame.mk 20 [("y", PVal.pint 3), ("z", PVal.pint 4)]])
      0 "y" (by decide) (by decide) (by decide)).2.2 (PVal.pint 3) rfl,
   merge_clip_props_spec.2
      [VideoNode.mk [VideoFrame.mk 10 [("x", PVal.pint 1)]],
       VideoNode.mk [VideoFrame.mk 20 [("x", PVal.pint 2)]],
       VideoNode.mk [VideoFrame.mk 30 [("x", PVal.pint 5)]]] 0 0 "x"
      (by decide) (by decide) (by decide)⟩

theorem get_prop_error_uniformity_witness :
    get_prop (δ := Unit) (HoldsPropValue.props [("a", PVal.pint 1)]) (PropKeyArg.str "a")
      PType.tInt (some (fun _ => Except.error PyExc.valueError)) none none =
      Except.error (GetPropRaise.propError
        (mkFramePropError "get_prop" "a" framePropErrorDefaultMessage [])) :=
  (get_prop_error_uniformity (δ := Unit) (HoldsPropValue.props [("a", PVal.pint 1)])
    (PropKeyArg.str "a") PType.tInt none [("a", PVal.pint 1)] rfl).1
    (fun _ => Except.error PyExc.valueError) (PVal.pint 1) PyExc.valueError rfl rfl rfl
    (by decide) (by decide)

end VSTools
